import Mathlib

/-!
Verification of the DRSB image-processing script (src/DRSB.py).

The script opens an image, flips it top-bottom then left-right, optionally
resizes it (presets 576x720 / 300x420, or a custom WxH), draws a black
crosshair through the integer center, and saves the result.

We embed the pure content of the pipeline: an image is a width, a height and
a total pixel function `Nat → Nat → α` (only in-bounds coordinates are
meaningful).  PIL library primitives (`transpose`, `resize`, `ImageDraw.line`)
are embedded by their documented pixel-level semantics; the LANCZOS
resampling filter is abstracted as a `Resampler` parameter, since the
repository only relies on `resize` returning an image of exactly the
requested dimensions.  The `main` argument handling (existence check, output
path derivation, `--sizing` parsing, size-mode precedence) is embedded as a
pure function from parsed arguments to an outcome.
-/

deriving instance DecidableEq for Except

namespace DRSB

/-- An in-memory raster image with pixel type `α`: a width and height in
pixels, and a total pixel lookup (meaningful for `x < width`, `y < height`). -/
structure PILImage (α : Type) where
  width : Nat
  height : Nat
  pix : Nat → Nat → α

/-- `img.transpose(Image.FLIP_TOP_BOTTOM)`: row `y` of the result is row
`height - 1 - y` of the source (vertical mirror). -/
def flipTopBottom {α : Type} (img : PILImage α) : PILImage α :=
  ⟨img.width, img.height, fun x y => img.pix x (img.height - 1 - y)⟩

/-- `img.transpose(Image.FLIP_LEFT_RIGHT)`: column `x` of the result is column
`width - 1 - x` of the source (horizontal mirror). -/
def flipLeftRight {α : Type} (img : PILImage α) : PILImage α :=
  ⟨img.width, img.height, fun x y => img.pix (img.width - 1 - x) y⟩

/-- A 180° rotation, stated from the spec's words for comparison with the
two-flip composition: pixel `(x, y)` of the result is pixel
`(width - 1 - x, height - 1 - y)` of the source. -/
def rotate180 {α : Type} (img : PILImage α) : PILImage α :=
  ⟨img.width, img.height, fun x y => img.pix (img.width - 1 - x) (img.height - 1 - y)⟩

/-- A resampling filter (the script uses `Image.Resampling.LANCZOS`): given
the source image, the target width and height, and a target coordinate, it
produces the interpolated pixel.  The repository never depends on the
filter's values, only on `resize` returning the requested dimensions, so the
filter is a parameter of the embedding. -/
def Resampler (α : Type) : Type :=
  PILImage α → Nat → Nat → Nat → Nat → α

/-- `img.resize((w, h), filter)`: PIL returns an image of exactly the
requested size `w × h`, with pixel content computed by the resampling
filter. -/
def resize {α : Type} (img : PILImage α) (w h : Nat) (kernel : Resampler α) :
    PILImage α :=
  ⟨w, h, fun x y => kernel img w h x y⟩

/-- `draw.line([(x0, y0), (x1, y0)], fill, width=1)` for a horizontal
segment: every canvas pixel `(x, y0)` with `x0 ≤ x ≤ x1` that lies inside the
image is overwritten with `fill`; pixels outside the canvas are clipped. -/
def drawHLine {α : Type} (img : PILImage α) (x0 x1 y0 : Nat) (fill : α) :
    PILImage α :=
  ⟨img.width, img.height, fun x y =>
    if y = y0 ∧ x0 ≤ x ∧ x ≤ x1 ∧ x < img.width ∧ y < img.height then fill
    else img.pix x y⟩

/-- `draw.line([(x0, y0), (x0, y1)], fill, width=1)` for a vertical segment:
every canvas pixel `(x0, y)` with `y0 ≤ y ≤ y1` that lies inside the image is
overwritten with `fill`; pixels outside the canvas are clipped. -/
def drawVLine {α : Type} (img : PILImage α) (x0 y0 y1 : Nat) (fill : α) :
    PILImage α :=
  ⟨img.width, img.height, fun x y =>
    if x = x0 ∧ y0 ≤ y ∧ y ≤ y1 ∧ x < img.width ∧ y < img.height then fill
    else img.pix x y⟩

/-- `process_image` (src/DRSB.py lines 8-46), from the already-decoded image
to the final image handed to `save`: flip top-bottom, flip left-right, resolve
the final dimensions from `sizing` / `size_mode` (resizing when not
original), then draw the two black crosshair lines through
`(width_px // 2, height_px // 2)`.  `black` is the fill color and `kernel`
the LANCZOS resampler.  The file I/O of lines 18 and 49-50 is outside the
embedding. -/
def process_image {α : Type} (img : PILImage α) (size_mode : String)
    (sizing : Option (Nat × Nat)) (black : α) (kernel : Resampler α) :
    PILImage α :=
  let original_width := img.width
  let original_height := img.height
  let img1 := flipTopBottom img
  let img2 := flipLeftRight img1
  let resolved : PILImage α × Nat × Nat :=
    match sizing with
    | some (w, h) => (resize img2 w h kernel, w, h)
    | none =>
      if size_mode = "original" then (img2, original_width, original_height)
      else if size_mode = "smallest" then (resize img2 300 420 kernel, 300, 420)
      else (resize img2 576 720 kernel, 576, 720)
  let img3 := resolved.1
  let width_px := resolved.2.1
  let height_px := resolved.2.2
  let center_x := width_px / 2
  let center_y := height_px / 2
  let img4 := drawHLine img3 0 width_px center_y black
  drawVLine img4 center_x 0 height_px black

/-! ### CLI layer (src/DRSB.py `main`, lines 52-125)

Python strings are embedded as `List Char` (with `String.data` /
`String.mk` at the boundary).  `str.lower` is embedded for ASCII (the only
characters the script's size syntax involves), `str.replace(" ", "")` as a
filter, `str.split(sep)` for a one-character separator, and `int(...)` as an
optional sign followed by decimal digits (Python's digit-grouping
underscores and non-space whitespace stripping are not exercised by any
argument the parser accepts and are left out). -/

/-- `s.lower()` on ASCII text: map each character to lower case. -/
def pyLower (l : List Char) : List Char :=
  l.map Char.toLower

/-- `s.replace(" ", "")`: remove every space character. -/
def pyRemoveSpaces (l : List Char) : List Char :=
  l.filter (fun c => ¬ (c = ' '))

/-- `s.split(sep)` for a single-character separator `c` (Python semantics:
splitting the empty string gives `[""]`, adjacent separators give empty
fields). -/
def splitOnChar (c : Char) : List Char → List (List Char)
  | [] => [[]]
  | a :: rest =>
    match splitOnChar c rest with
    | [] => [[]]
    | g :: gs => if a = c then [] :: g :: gs else (a :: g) :: gs

/-- The value of a nonempty all-digit string, `none` otherwise. -/
def digits_val (l : List Char) : Option Nat :=
  if l ≠ [] ∧ l.all (fun c => c.isDigit) then
    some (l.foldl (fun acc c => acc * 10 + (c.toNat - 48)) 0)
  else none

/-- Python `int(s)` on an already-space-free string: optional sign followed
by decimal digits; `none` models `ValueError`. -/
def pyInt (l : List Char) : Option Int :=
  match l with
  | '+' :: rest => (digits_val rest).map (fun n => (n : Int))
  | '-' :: rest => (digits_val rest).map (fun n => -(n : Int))
  | _ => (digits_val l).map (fun n => (n : Int))

/-- Error message printed at src/DRSB.py line 101. -/
def msg_positive : String :=
  "Error: --sizing values must be positive integers"

/-- Error message printed at src/DRSB.py lines 104 and 107. -/
def msg_form : String :=
  "Error: --sizing must be in the form WxH or W,H with integers, e.g., 800x600"

/-- The post-normalization part of the `--sizing` handling (src/DRSB.py
lines 90-108): split on `x` if present else on `,`, require exactly two
integer fields, both positive; `Except.error` carries the message printed
before `return 1`. -/
def parse_sizing_core (s : List Char) : Except String (Int × Int) :=
  let parts := if s.any (fun c => c = 'x') then splitOnChar 'x' s
               else splitOnChar ',' s
  match parts with
  | [a, b] =>
    match pyInt a, pyInt b with
    | some w, some h =>
      if 0 < w ∧ 0 < h then Except.ok (w, h) else Except.error msg_positive
    | _, _ => Except.error msg_form
  | _ => Except.error msg_form

/-- The `--sizing` handling of src/DRSB.py lines 88-108 on the raw argument
characters: line 89 lower-cases the argument and removes its spaces, then
the split-and-validate core runs on the normalized text. -/
def parse_sizing_chars (l : List Char) : Except String (Int × Int) :=
  parse_sizing_core (pyRemoveSpaces (pyLower l))

/-- `parse_sizing_chars` at the `String` boundary. -/
def parse_sizing (s : String) : Except String (Int × Int) :=
  parse_sizing_chars s.data

/-! `os.path` on POSIX paths, from CPython's `posixpath`/`genericpath`:
`dirname`/`basename` split at the last `/`; `splitext` splits the extension
at the last `.` provided it lies after the last `/` and the characters
between them are not all dots; `join` of two components keeps the second if
absolute and otherwise inserts `/` unless one is already there. -/

/-- Index of the last occurrence of `c` in `l`, if any (`str.rfind`). -/
def rfindIdx (c : Char) : List Char → Option Nat
  | [] => none
  | a :: rest =>
    match rfindIdx c rest with
    | some i => some (i + 1)
    | none => if a = c then some 0 else none

/-- One past the index of the last `/` (`p.rfind("/") + 1`, with `rfind`
returning `-1` when absent). -/
def sepEnd (p : List Char) : Nat :=
  match rfindIdx '/' p with
  | some i => i + 1
  | none => 0

/-- `os.path.dirname(p)`: everything before the last `/`, with trailing
slashes stripped unless the head is all slashes. -/
def dirname (p : List Char) : List Char :=
  let head := p.take (sepEnd p)
  if head ≠ [] ∧ head.any (fun c => ¬ (c = '/')) then
    ((head.reverse.dropWhile (fun c => c = '/')).reverse)
  else head

/-- `os.path.basename(p)`: everything after the last `/`. -/
def basename (p : List Char) : List Char :=
  p.drop (sepEnd p)

/-- `os.path.splitext(p)`: split at the last `.` when it comes after the
last `/` and at least one character strictly between them is not a dot
(so all-leading-dot names keep their dots in the root). -/
def splitext (p : List Char) : List Char × List Char :=
  match rfindIdx '.' p with
  | none => (p, [])
  | some d =>
    if sepEnd p ≤ d ∧ ((p.take d).drop (sepEnd p)).any (fun c => ¬ (c = '.')) then
      (p.take d, p.drop d)
    else (p, [])

/-- `os.path.join(a, b)` for two components: `b` if it is absolute,
otherwise `a` and `b` joined with a `/` unless `a` is empty or already ends
in one. -/
def joinPath (a b : List Char) : List Char :=
  if b.head? = some '/' then b
  else if a = [] ∨ a.getLast? = some '/' then a ++ b
  else a ++ ('/' :: b)

/-- Output-path derivation of src/DRSB.py lines 78-84: `<stem>_DRSB<ext>`
in the input's directory, with the extension defaulting to `.png` when the
input basename has none. -/
def derive_output (input_image : String) : String :=
  let p := input_image.data
  let in_dir := dirname p
  let in_base := basename p
  let se := splitext in_base
  let ext := if se.2 = [] then ".png".data else se.2
  String.mk (joinPath in_dir (se.1 ++ "_DRSB".data ++ ext))

/-- Lines 76-84: the output argument is used as-is unless it equals the
parser default `"output.png"`, in which case the path is derived from the
input name. -/
def resolve_output (output input_image : String) : String :=
  if output = "output.png" then derive_output input_image else output

/-- Size-mode resolution of src/DRSB.py lines 110-117: a successfully
parsed custom size wins, then `--original`, then `--smallest`, else the
small default.  (The `--small` flag is accepted by the parser but never
consulted: small is already the default.) -/
def resolve_size_mode (custom_size : Option (Int × Int))
    (original smallest : Bool) : String :=
  if custom_size.isSome then "custom"
  else if original then "original"
  else if smallest then "smallest"
  else "small"

/-- The parsed command-line arguments (src/DRSB.py lines 53-68), with
argparse's defaults. -/
structure Args where
  input_image : String
  output : String := "output.png"
  original : Bool := false
  small : Bool := false
  smallest : Bool := false
  sizing : Option String := none

/-- What one run of `main` does: fail the existence pre-check (printing the
message and returning 1), fail `--sizing` validation (printing the message
and returning 1), or reach line 121 and invoke `process_image` on the
resolved output path, size mode and custom size. -/
inductive MainOutcome where
  | notFound (msg : String)
  | sizingError (msg : String)
  | run (output_path : String) (size_mode : String)
      (custom_size : Option (Int × Int))
  deriving DecidableEq

/-- The process exit code of an outcome.  `run` yields 0 when
`process_image` raises no exception; the exception path of lines 123-125
(also exit code 1) involves the image library's I/O and is outside the pure
embedding. -/
def exit_code : MainOutcome → Nat
  | MainOutcome.notFound _ => 1
  | MainOutcome.sizingError _ => 1
  | MainOutcome.run _ _ _ => 0

/-- Whether the outcome reaches the `process_image` call (line 121) — on
the two error outcomes no image is read, processed or written. -/
def invokes_processing : MainOutcome → Bool
  | MainOutcome.run _ _ _ => true
  | _ => false

/-- The error line printed before `return 1`, when the outcome is one of
the two error outcomes. -/
def printed_error : MainOutcome → Option String
  | MainOutcome.notFound msg => some msg
  | MainOutcome.sizingError msg => some msg
  | MainOutcome.run _ _ _ => none

/-- `main` (src/DRSB.py lines 52-125) after argument parsing, as a function
of the parsed arguments and of whether `os.path.exists(args.input_image)`
holds: existence check first, then output-path resolution, then `--sizing`
validation (skipped for a `None` or empty — falsy — value), then size-mode
resolution and the `process_image` call. -/
def main (args : Args) (input_exists : Bool) : MainOutcome :=
  if ¬ input_exists then
    MainOutcome.notFound
      ("Error: Input file \x27" ++ args.input_image ++ "\x27 not found")
  else
    let output_path := resolve_output args.output args.input_image
    let custom_step : Except String (Option (Int × Int)) :=
      match args.sizing with
      | none => Except.ok none
      | some s =>
        if s.data = [] then Except.ok none
        else
          match parse_sizing s with
          | Except.ok wh => Except.ok (some wh)
          | Except.error msg => Except.error msg
    match custom_step with
    | Except.error msg => MainOutcome.sizingError msg
    | Except.ok custom_size =>
      MainOutcome.run output_path
        (resolve_size_mode custom_size args.original args.smallest)
        custom_size

end DRSB

/-- Pixel characterization of the crosshair-drawing step (lines 40-46) on an
arbitrary canvas: an in-bounds pixel is black exactly on the two center
lines, and otherwise keeps the canvas's value. -/
theorem crosshair_pix {α : Type} (img : DRSB.PILImage α) (black : α)
    (x y : Nat) (hx : x < img.width) (hy : y < img.height) :
    (DRSB.drawVLine (DRSB.drawHLine img 0 img.width (img.height / 2) black)
        (img.width / 2) 0 img.height black).pix x y =
      if x = img.width / 2 ∨ y = img.height / 2 then black else img.pix x y := by
  simp only [DRSB.drawVLine, DRSB.drawHLine]
  split_ifs <;> first | rfl | omega

/-- C1: for every source image and every size directive the output
dimensions equal the resolved directive — the input's W×H under
`"original"`, 576×720 under the small default, 300×420 under `"smallest"`,
and (w, h) under a custom sizing, whatever the input's size and whatever
`size_mode` accompanies the custom sizing; and under the small preset the
resampler is still fed the flipped image (off the crosshair lines, output
pixels come from the kernel applied to the double-flipped source), so the
flip is applied even when the input already measures 576×720. -/
theorem c1_output_dimensions {α : Type} (black : α) (kernel : DRSB.Resampler α)
    (img : DRSB.PILImage α) (m : String) (w h : Nat) :
    ((DRSB.process_image img m (some (w, h)) black kernel).width = w ∧
      (DRSB.process_image img m (some (w, h)) black kernel).height = h) ∧
    ((DRSB.process_image img "original" none black kernel).width = img.width ∧
      (DRSB.process_image img "original" none black kernel).height = img.height) ∧
    ((DRSB.process_image img "smallest" none black kernel).width = 300 ∧
      (DRSB.process_image img "smallest" none black kernel).height = 420) ∧
    ((DRSB.process_image img "small" none black kernel).width = 576 ∧
      (DRSB.process_image img "small" none black kernel).height = 720) ∧
    (∀ x y, x < 576 → y < 720 → ¬ (x = 288) → ¬ (y = 360) →
      (DRSB.process_image img "small" none black kernel).pix x y =
        kernel (DRSB.flipLeftRight (DRSB.flipTopBottom img)) 576 720 x y) := by
  refine ⟨⟨rfl, rfl⟩, ⟨rfl, rfl⟩, ⟨rfl, rfl⟩, ⟨rfl, rfl⟩, ?_⟩
  intro x y hx hy hxc hyc
  have h := crosshair_pix
    (DRSB.resize (DRSB.flipLeftRight (DRSB.flipTopBottom img)) 576 720 kernel)
    black x y hx hy
  simp only [DRSB.resize] at h
  rw [show (DRSB.process_image img "small" none black kernel).pix x y =
    (DRSB.drawVLine (DRSB.drawHLine
      (DRSB.resize (DRSB.flipLeftRight (DRSB.flipTopBottom img)) 576 720 kernel)
      0 576 (720 / 2) black) (576 / 2) 0 720 black).pix x y from rfl]
  simp only [DRSB.resize]
  rw [h, if_neg]
  push_neg
  exact ⟨by simpa using hxc, by simpa using hyc⟩

/-- C1 witness: at a concrete 576×720 input, an off-line pixel of the small
preset's output is the resampler's value on the flipped image. -/
theorem c1_output_dimensions_witness :
    (DRSB.process_image (⟨576, 720, fun _ _ => (5 : Nat)⟩) "small" none 0
      (fun _ _ _ _ _ => 7)).pix 0 0 = 7 :=
  (c1_output_dimensions 0 (fun _ _ _ _ _ => 7) ⟨576, 720, fun _ _ => 5⟩ "q" 2
    3).2.2.2.2 0 0 (by decide) (by decide) (by decide) (by decide)

/-- C2: the code's vertical flip followed by its horizontal flip equals a
180° rotation, and for in-bounds (x, y) the composed flips carry the source
pixel at (x, y) to position (W-1-x, H-1-y). -/
theorem c2_flips_compose_to_rot180 {α : Type} (img : DRSB.PILImage α)
    (x y : Nat) (hx : x < img.width) (hy : y < img.height) :
    DRSB.flipLeftRight (DRSB.flipTopBottom img) = DRSB.rotate180 img ∧
    (DRSB.flipLeftRight (DRSB.flipTopBottom img)).pix
        (img.width - 1 - x) (img.height - 1 - y) = img.pix x y := by
  refine ⟨rfl, ?_⟩
  show img.pix (img.width - 1 - (img.width - 1 - x))
      (img.height - 1 - (img.height - 1 - y)) = img.pix x y
  have h1 : img.width - 1 - (img.width - 1 - x) = x := by omega
  have h2 : img.height - 1 - (img.height - 1 - y) = y := by omega
  rw [h1, h2]

/-- C2 witness: on a concrete 3×2 image, pixel (1, 0) lands at (1, 1). -/
theorem c2_flips_compose_to_rot180_witness :
    DRSB.flipLeftRight (DRSB.flipTopBottom
        (⟨3, 2, fun x y => 10 * x + y⟩ : DRSB.PILImage Nat)) =
      DRSB.rotate180 ⟨3, 2, fun x y => 10 * x + y⟩ ∧
    (DRSB.flipLeftRight (DRSB.flipTopBottom
        (⟨3, 2, fun x y => 10 * x + y⟩ : DRSB.PILImage Nat))).pix 1 1 = 10 :=
  c2_flips_compose_to_rot180 ⟨3, 2, fun x y => 10 * x + y⟩ 1 0 (by decide)
    (by decide)

/-- `crosshair_pix` specialized to a canvas produced by `resize`: after
resampling to w×h, an in-bounds pixel of the crosshair-annotated image is
black exactly on the two center lines and otherwise is the resampler's
value. -/
theorem crosshair_resize_pix {α : Type} (src : DRSB.PILImage α) (black : α)
    (kernel : DRSB.Resampler α) (w h x y : Nat) (hx : x < w) (hy : y < h) :
    (DRSB.drawVLine (DRSB.drawHLine (DRSB.resize src w h kernel) 0 w (h / 2)
        black) (w / 2) 0 h black).pix x y =
      if x = w / 2 ∨ y = h / 2 then black else kernel src w h x y := by
  have hcp := crosshair_pix (DRSB.resize src w h kernel) black x y hx hy
  simpa only [DRSB.resize] using hcp

/-- C3: with a non-original directive the image is resized before the
crosshair is drawn, so the two lines live on the final dimensions and span
them edge-to-edge: every x of the final width is black on the horizontal
line's row, and every y of the final height is black on the vertical line's
column — for the small preset, the smallest preset, and any positive custom
size (whatever `size_mode` string accompanies it). -/
theorem c3_crosshair_spans_final {α : Type} (black : α)
    (kernel : DRSB.Resampler α) (img : DRSB.PILImage α) (w h : Nat)
    (hw : 0 < w) (hh : 0 < h) :
    (∀ x, x < 576 →
      (DRSB.process_image img "small" none black kernel).pix x (720 / 2) = black) ∧
    (∀ y, y < 720 →
      (DRSB.process_image img "small" none black kernel).pix (576 / 2) y = black) ∧
    (∀ x, x < 300 →
      (DRSB.process_image img "smallest" none black kernel).pix x (420 / 2) = black) ∧
    (∀ y, y < 420 →
      (DRSB.process_image img "smallest" none black kernel).pix (300 / 2) y = black) ∧
    (∀ m x, x < w →
      (DRSB.process_image img m (some (w, h)) black kernel).pix x (h / 2) = black) ∧
    (∀ m y, y < h →
      (DRSB.process_image img m (some (w, h)) black kernel).pix (w / 2) y = black) := by
  set src := DRSB.flipLeftRight (DRSB.flipTopBottom img) with hsrc
  refine ⟨?_, ?_, ?_, ?_, ?_, ?_⟩
  · intro x hx
    have e : (DRSB.process_image img "small" none black kernel).pix x (720 / 2) =
        (DRSB.drawVLine (DRSB.drawHLine (DRSB.resize src 576 720 kernel) 0 576
          (720 / 2) black) (576 / 2) 0 720 black).pix x (720 / 2) := rfl
    rw [e, crosshair_resize_pix src black kernel 576 720 x (720 / 2) hx
      (by norm_num), if_pos (Or.inr rfl)]
  · intro y hy
    have e : (DRSB.process_image img "small" none black kernel).pix (576 / 2) y =
        (DRSB.drawVLine (DRSB.drawHLine (DRSB.resize src 576 720 kernel) 0 576
          (720 / 2) black) (576 / 2) 0 720 black).pix (576 / 2) y := rfl
    rw [e, crosshair_resize_pix src black kernel 576 720 (576 / 2) y
      (by norm_num) hy, if_pos (Or.inl rfl)]
  · intro x hx
    have e : (DRSB.process_image img "smallest" none black kernel).pix x (420 / 2) =
        (DRSB.drawVLine (DRSB.drawHLine (DRSB.resize src 300 420 kernel) 0 300
          (420 / 2) black) (300 / 2) 0 420 black).pix x (420 / 2) := rfl
    rw [e, crosshair_resize_pix src black kernel 300 420 x (420 / 2) hx
      (by norm_num), if_pos (Or.inr rfl)]
  · intro y hy
    have e : (DRSB.process_image img "smallest" none black kernel).pix (300 / 2) y =
        (DRSB.drawVLine (DRSB.drawHLine (DRSB.resize src 300 420 kernel) 0 300
          (420 / 2) black) (300 / 2) 0 420 black).pix (300 / 2) y := rfl
    rw [e, crosshair_resize_pix src black kernel 300 420 (300 / 2) y
      (by norm_num) hy, if_pos (Or.inl rfl)]
  · intro m x hx
    have e : (DRSB.process_image img m (some (w, h)) black kernel).pix x (h / 2) =
        (DRSB.drawVLine (DRSB.drawHLine (DRSB.resize src w h kernel) 0 w
          (h / 2) black) (w / 2) 0 h black).pix x (h / 2) := rfl
    rw [e, crosshair_resize_pix src black kernel w h x (h / 2) hx
      (by omega), if_pos (Or.inr rfl)]
  · intro m y hy
    have e : (DRSB.process_image img m (some (w, h)) black kernel).pix (w / 2) y =
        (DRSB.drawVLine (DRSB.drawHLine (DRSB.resize src w h kernel) 0 w
          (h / 2) black) (w / 2) 0 h black).pix (w / 2) y := rfl
    rw [e, crosshair_resize_pix src black kernel w h (w / 2) y
      (by omega) hy, if_pos (Or.inl rfl)]

/-- C3 witness: on a 3×3 custom output, the pixel (0, 1) lies on the
horizontal center line and is black. -/
theorem c3_crosshair_spans_final_witness :
    (DRSB.process_image (⟨4, 5, fun _ _ => (9 : Nat)⟩ : DRSB.PILImage Nat) "q"
      (some (3, 3)) 0 (fun _ _ _ _ _ => 7)).pix 0 (3 / 2) = 0 :=
  (c3_crosshair_spans_final 0 (fun _ _ _ _ _ => 7) ⟨4, 5, fun _ _ => 9⟩ 3 3
    (by decide) (by decide)).2.2.2.2.1 "q" 0 (by decide)

/-- C4: the crosshair center is the floor-division point
(finalW / 2, finalH / 2): an in-bounds pixel of a custom-size output is
black exactly when x = w / 2 or y = h / 2; 576 / 2 = 288 and 301 / 2 = 150;
under the small preset the vertical line is at x = 288 and the horizontal at
y = 360; and under a width-301 custom size the vertical line is at
x = 150. -/
theorem c4_crosshair_center {α : Type} (black : α) (kernel : DRSB.Resampler α)
    (img : DRSB.PILImage α) (m : String) (w h x y : Nat)
    (hx : x < w) (hy : y < h) :
    ((DRSB.process_image img m (some (w, h)) black kernel).pix x y =
      if x = w / 2 ∨ y = h / 2 then black
      else kernel (DRSB.flipLeftRight (DRSB.flipTopBottom img)) w h x y) ∧
    (576 / 2 = 288 ∧ 301 / 2 = 150) ∧
    (∀ y', y' < 720 →
      (DRSB.process_image img "small" none black kernel).pix 288 y' = black) ∧
    (∀ x', x' < 576 →
      (DRSB.process_image img "small" none black kernel).pix x' 360 = black) ∧
    (∀ y', y' < h →
      (DRSB.process_image img m (some (301, h)) black kernel).pix 150 y' = black) := by
  set src := DRSB.flipLeftRight (DRSB.flipTopBottom img) with hsrc
  refine ⟨?_, ⟨by norm_num, by norm_num⟩, ?_, ?_, ?_⟩
  · have e : (DRSB.process_image img m (some (w, h)) black kernel).pix x y =
        (DRSB.drawVLine (DRSB.drawHLine (DRSB.resize src w h kernel) 0 w
          (h / 2) black) (w / 2) 0 h black).pix x y := rfl
    rw [e, crosshair_resize_pix src black kernel w h x y hx hy]
  · intro y' hy'
    have e : (DRSB.process_image img "small" none black kernel).pix 288 y' =
        (DRSB.drawVLine (DRSB.drawHLine (DRSB.resize src 576 720 kernel) 0 576
          (720 / 2) black) (576 / 2) 0 720 black).pix 288 y' := rfl
    rw [e, crosshair_resize_pix src black kernel 576 720 288 y'
      (by norm_num) hy', if_pos (Or.inl (by norm_num))]
  · intro x' hx'
    have e : (DRSB.process_image img "small" none black kernel).pix x' 360 =
        (DRSB.drawVLine (DRSB.drawHLine (DRSB.resize src 576 720 kernel) 0 576
          (720 / 2) black) (576 / 2) 0 720 black).pix x' 360 := rfl
    rw [e, crosshair_resize_pix src black kernel 576 720 x' 360 hx'
      (by norm_num), if_pos (Or.inr (by norm_num))]
  · intro y' hy'
    have e : (DRSB.process_image img m (some (301, h)) black kernel).pix 150 y' =
        (DRSB.drawVLine (DRSB.drawHLine (DRSB.resize src 301 h kernel) 0 301
          (h / 2) black) (301 / 2) 0 h black).pix 150 y' := rfl
    rw [e, crosshair_resize_pix src black kernel 301 h 150 y'
      (by norm_num) hy', if_pos (Or.inl (by norm_num))]

/-- C4 witness: on a 3×3 custom output, the characterization holds at
pixel (2, 2). -/
theorem c4_crosshair_center_witness :
    (DRSB.process_image (⟨4, 5, fun _ _ => (9 : Nat)⟩ : DRSB.PILImage Nat) "q"
      (some (3, 3)) 0 (fun _ _ _ _ _ => 7)).pix 2 2 =
      if 2 = 3 / 2 ∨ 2 = 3 / 2 then 0 else 7 :=
  (c4_crosshair_center 0 (fun _ _ _ _ _ => 7) ⟨4, 5, fun _ _ => 9⟩ "q" 3 3 2 2
    (by decide) (by decide)).1

/-- C5: the resolved size mode follows the precedence
sizing > original > smallest > small-default — a parsed custom size yields
"custom" whatever the flags, otherwise `--original` beats `--smallest`,
which beats the small default; and through `main`, a valid `--sizing`
argument yields the custom mode whatever combination of `--original`,
`--small` and `--smallest` accompanies it. -/
theorem c5_size_mode_precedence :
    (∀ (wh : Int × Int) (o s : Bool),
      DRSB.resolve_size_mode (some wh) o s = "custom") ∧
    (∀ s : Bool, DRSB.resolve_size_mode none true s = "original") ∧
    DRSB.resolve_size_mode none false true = "smallest" ∧
    DRSB.resolve_size_mode none false false = "small" ∧
    (∀ o sm s : Bool,
      DRSB.main
        { input_image := "in.png", output := "output.png", original := o,
          small := sm, smallest := s, sizing := some "800x600" } true =
        DRSB.MainOutcome.run "in_DRSB.png" "custom" (some (800, 600))) :=
  ⟨fun _ _ _ => rfl, fun _ => rfl, rfl, rfl, fun _ _ _ => rfl⟩

/-- C6: `--sizing 800x600` and `--sizing 800,600` both parse to the custom
size (800, 600), while `0x10`, `abc x10` and `10` are rejected with the
corresponding error message; through `main`, each rejected argument makes
the run exit with code 1, print that message, and never reach
`process_image`. -/
theorem c6_sizing_errors :
    DRSB.parse_sizing "800x600" = Except.ok (800, 600) ∧
    DRSB.parse_sizing "800,600" = Except.ok (800, 600) ∧
    DRSB.parse_sizing "0x10" = Except.error DRSB.msg_positive ∧
    DRSB.parse_sizing "abc x10" = Except.error DRSB.msg_form ∧
    DRSB.parse_sizing "10" = Except.error DRSB.msg_form ∧
    (DRSB.main { input_image := "a.png", sizing := some "0x10" } true =
      DRSB.MainOutcome.sizingError DRSB.msg_positive) ∧
    (DRSB.exit_code
      (DRSB.main { input_image := "a.png", sizing := some "0x10" } true) = 1) ∧
    (DRSB.invokes_processing
      (DRSB.main { input_image := "a.png", sizing := some "0x10" } true) = false) ∧
    (DRSB.exit_code
      (DRSB.main { input_image := "a.png", sizing := some "abc x10" } true) = 1) ∧
    (DRSB.invokes_processing
      (DRSB.main { input_image := "a.png", sizing := some "abc x10" } true) = false) ∧
    (DRSB.exit_code
      (DRSB.main { input_image := "a.png", sizing := some "10" } true) = 1) ∧
    (DRSB.invokes_processing
      (DRSB.main { input_image := "a.png", sizing := some "10" } true) = false) := by
  refine ⟨by decide, by decide, by decide, by decide, by decide, by decide,
    by decide, by decide, by decide, by decide, by decide, by decide⟩

/-- C7: with the default `-o` value the output path is derived from the
input as `<stem>_DRSB<ext>` joined to the input's directory, the extension
defaulting to `.png` when the basename has none; in particular `photo.jpg`
resolves to `photo_DRSB.jpg` and extensionless `photo` to
`photo_DRSB.png`. -/
theorem c7_output_derivation (p : String) (stem ext d : List Char)
    (hse : DRSB.splitext (DRSB.basename p.data) = (stem, ext))
    (hd : DRSB.dirname p.data = d) :
    DRSB.resolve_output "output.png" p =
      String.mk (DRSB.joinPath d (stem ++ "_DRSB".data ++
        (if ext = [] then ".png".data else ext))) ∧
    DRSB.resolve_output "output.png" "photo.jpg" = "photo_DRSB.jpg" ∧
    DRSB.resolve_output "output.png" "photo" = "photo_DRSB.png" ∧
    DRSB.resolve_output "output.png" "dir/photo.jpg" = "dir/photo_DRSB.jpg" := by
  refine ⟨?_, by decide, by decide, by decide⟩
  rw [show DRSB.resolve_output "output.png" p = DRSB.derive_output p from rfl]
  simp only [DRSB.derive_output, hse, hd]

/-- C7 witness: the derivation shape instantiated at `photo.jpg`. -/
theorem c7_output_derivation_witness :
    DRSB.resolve_output "output.png" "photo.jpg" =
      String.mk (DRSB.joinPath [] ("photo".data ++ "_DRSB".data ++
        ".jpg".data)) :=
  (c7_output_derivation "photo.jpg" "photo".data ".jpg".data [] (by decide)
    (by decide)).1

/-- C8: whenever the input path does not exist, `main` stops at the
pre-flight check: exit code 1, an error line that mentions the path, and no
image processing (hence no output file). -/
theorem c8_missing_input (args : DRSB.Args) :
    DRSB.main args false =
      DRSB.MainOutcome.notFound
        ("Error: Input file \x27" ++ args.input_image ++ "\x27 not found") ∧
    DRSB.exit_code (DRSB.main args false) = 1 ∧
    DRSB.invokes_processing (DRSB.main args false) = false ∧
    (∃ pre post : String,
      DRSB.printed_error (DRSB.main args false) =
        some (pre ++ args.input_image ++ post)) :=
  ⟨rfl, rfl, rfl, ⟨"Error: Input file \x27", "\x27 not found", rfl⟩⟩

/-- C9: an explicit `-o output.png` is indistinguishable from an omitted
`-o`: the resolved output path is always the derived one, so an input named
`photo.jpg` is written to `photo_DRSB.jpg` and never to a file literally
named `output.png`. -/
theorem c9_explicit_output_png :
    (∀ p : String,
      DRSB.resolve_output "output.png" p = DRSB.derive_output p) ∧
    DRSB.main { input_image := "photo.jpg", output := "output.png" } true =
      DRSB.MainOutcome.run "photo_DRSB.jpg" "small" none ∧
    ¬ ("photo_DRSB.jpg" = "output.png") :=
  ⟨fun _ => rfl, by decide, by decide⟩

/-- C10: `--sizing` is lower-cased and space-stripped before splitting, so
`800X600`, `800 x 600` and ` 800 , 600 ` all parse exactly like `800x600`,
namely to the custom size (800, 600). -/
theorem c10_sizing_normalization :
    DRSB.parse_sizing "800X600" = DRSB.parse_sizing "800x600" ∧
    DRSB.parse_sizing "800 x 600" = DRSB.parse_sizing "800x600" ∧
    DRSB.parse_sizing " 800 , 600 " = DRSB.parse_sizing "800x600" ∧
    DRSB.parse_sizing "800x600" = Except.ok (800, 600) ∧
    (∀ l : List Char, DRSB.parse_sizing_chars l =
      DRSB.parse_sizing_core (DRSB.pyRemoveSpaces (DRSB.pyLower l))) :=
  ⟨by decide, by decide, by decide, by decide, fun _ => rfl⟩

